import Mathlib

/-!
Verification of the eligibility-checking and administrator account-security
subsystems: a shallow embedding of `scheme_eligibilty_checker.py` and
`administrator_service.py`, followed by theorems about the embedded code.

Machine words are modelled as `Nat` reduced modulo `2 ^ 32`; timestamps are
modelled as `Int` numbers of seconds (the code compares `datetime` differences
against `timedelta(minutes = w)`, which is order-isomorphic to comparing
integer second counts against `w * 60`).
-/

/- ## SHA-256, as computed by `hashlib.sha256(bytes).hexdigest()`

The service hashes the UTF-8 encoding of the interpolation of salt, a colon
separator, and the password.  The implementation below follows FIPS 180-4
over a byte list, with 32-bit words represented as `Nat` modulo `2 ^ 32`. -/

/-- Reduce a natural number to a 32-bit word. -/
def w32 (n : Nat) : Nat := n % 4294967296

/-- Right rotation of a 32-bit word by `n` bits. -/
def rotr32 (n x : Nat) : Nat := w32 ((x % 4294967296) >>> n ||| (x % 4294967296) <<< (32 - n))

/-- Bitwise complement of a 32-bit word. -/
def bnot32 (x : Nat) : Nat := 4294967295 - x % 4294967296

/-- SHA-256 big sigma-0. -/
def bsig0 (x : Nat) : Nat := rotr32 2 x ^^^ rotr32 13 x ^^^ rotr32 22 x

/-- SHA-256 big sigma-1. -/
def bsig1 (x : Nat) : Nat := rotr32 6 x ^^^ rotr32 11 x ^^^ rotr32 25 x

/-- SHA-256 small sigma-0. -/
def ssig0 (x : Nat) : Nat := rotr32 7 x ^^^ rotr32 18 x ^^^ (x % 4294967296) >>> 3

/-- SHA-256 small sigma-1. -/
def ssig1 (x : Nat) : Nat := rotr32 17 x ^^^ rotr32 19 x ^^^ (x % 4294967296) >>> 10

/-- SHA-256 choice function. -/
def sha256Ch (x y z : Nat) : Nat := (x &&& y) ^^^ (bnot32 x &&& z)

/-- SHA-256 majority function. -/
def sha256Maj (x y z : Nat) : Nat := (x &&& y) ^^^ (x &&& z) ^^^ (y &&& z)

/-- The eight 32-bit working variables of the SHA-256 compression function. -/
structure Hash8 where
  a : Nat
  b : Nat
  c : Nat
  d : Nat
  e : Nat
  f : Nat
  g : Nat
  h : Nat
deriving Repr, DecidableEq

/-- The 64 SHA-256 round constants. -/
def sha256K : List Nat :=
  [1116352408, 1899447441, 3049323471, 3921009573,
   961987163, 1508970993, 2453635748, 2870763221,
   3624381080, 310598401, 607225278, 1426881987,
   1925078388, 2162078206, 2614888103, 3248222580,
   3835390401, 4022224774, 264347078, 604807628,
   770255983, 1249150122, 1555081692, 1996064986,
   2554220882, 2821834349, 2952996808, 3210313671,
   3336571891, 3584528711, 113926993, 338241895,
   666307205, 773529912, 1294757372, 1396182291,
   1695183700, 1986661051, 2177026350, 2456956037,
   2730485921, 2820302411, 3259730800, 3345764771,
   3516065817, 3600352804, 4094571909, 275423344,
   430227734, 506948616, 659060556, 883997877,
   958139571, 1322822218, 1537002063, 1747873779,
   1955562222, 2024104815, 2227730452, 2361852424,
   2428436474, 2756734187, 3204031479, 3329325298]

/-- The SHA-256 initial hash value. -/
def sha256InitialHash : Hash8 :=
  ⟨1779033703, 3144134277, 1013904242, 2773480762,
   1359893119, 2600822924, 528734635, 1541459225⟩

/-- One round of the SHA-256 compression function. -/
def sha256Round (k w : Nat) (s : Hash8) : Hash8 :=
  let t1 := w32 (s.h + bsig1 s.e + sha256Ch s.e s.f s.g + k + w)
  let t2 := w32 (bsig0 s.a + sha256Maj s.a s.b s.c)
  ⟨w32 (t1 + t2), s.a, s.b, s.c, w32 (s.d + t1), s.e, s.f, s.g⟩

/-- Run the 64 compression rounds over paired round constants and schedule words. -/
def sha256Rounds : List (Nat × Nat) → Hash8 → Hash8
  | [], s => s
  | (k, w) :: rest, s => sha256Rounds rest (sha256Round k w s)

/-- Extend a message schedule by one word. -/
def scheduleStep (ws : List Nat) : List Nat :=
  let l := ws.length
  ws ++ [w32 (ssig1 (ws.getD (l - 2) 0) + ws.getD (l - 7) 0 +
              ssig0 (ws.getD (l - 15) 0) + ws.getD (l - 16) 0)]

/-- Iterate `scheduleStep`. -/
def extendSchedule : Nat → List Nat → List Nat
  | 0, ws => ws
  | n + 1, ws => extendSchedule n (scheduleStep ws)

/-- The full 64-word message schedule of a 16-word block. -/
def sha256Schedule (block : List Nat) : List Nat := extendSchedule 48 block

/-- Process one 16-word block: compress and add back modulo `2 ^ 32`. -/
def processBlock (st : Hash8) (block : List Nat) : Hash8 :=
  let c := sha256Rounds (sha256K.zip (sha256Schedule block)) st
  ⟨w32 (st.a + c.a), w32 (st.b + c.b), w32 (st.c + c.c), w32 (st.d + c.d),
   w32 (st.e + c.e), w32 (st.f + c.f), w32 (st.g + c.g), w32 (st.h + c.h)⟩

/-- Group a byte list into big-endian 32-bit words (`n` = number of words). -/
def wordsOfBytes : Nat → List Nat → List Nat
  | 0, _ => []
  | n + 1, bs =>
      (bs.getD 0 0 * 16777216 + bs.getD 1 0 * 65536 + bs.getD 2 0 * 256 + bs.getD 3 0) ::
        wordsOfBytes n (bs.drop 4)

/-- All big-endian 32-bit words of a byte list. -/
def toWords (bs : List Nat) : List Nat := wordsOfBytes (bs.length / 4) bs

/-- Group a word list into 16-word blocks (`n` = number of blocks). -/
def blocksOfWords : Nat → List Nat → List (List Nat)
  | 0, _ => []
  | n + 1, ws => ws.take 16 :: blocksOfWords n (ws.drop 16)

/-- All 16-word blocks of a word list. -/
def toBlocks (ws : List Nat) : List (List Nat) := blocksOfWords (ws.length / 16) ws

/-- The eight big-endian bytes of a 64-bit length field. -/
def bigEndian8 (n : Nat) : List Nat :=
  [n >>> 56 % 256, n >>> 48 % 256, n >>> 40 % 256, n >>> 32 % 256,
   n >>> 24 % 256, n >>> 16 % 256, n >>> 8 % 256, n % 256]

/-- SHA-256 padding: append `0x80`, zero bytes to 56 mod 64, and the bit length. -/
def padMessage (m : List Nat) : List Nat :=
  m ++ [128] ++ List.replicate ((119 - m.length % 64) % 64) 0 ++ bigEndian8 (8 * m.length)

/-- The final SHA-256 state of a byte-list message. -/
def sha256Final (msg : List Nat) : Hash8 :=
  (toBlocks (toWords (padMessage msg))).foldl processBlock sha256InitialHash

/-- The 256-bit digest of a state, as a big-endian natural number. -/
def digestNat (st : Hash8) : Nat :=
  ((((((st.a * 4294967296 + st.b) * 4294967296 + st.c) * 4294967296 + st.d) * 4294967296 +
        st.e) * 4294967296 + st.f) * 4294967296 + st.g) * 4294967296 + st.h

/-- The SHA-256 digest of a byte-list message, as a natural number. -/
def sha256Nat (msg : List Nat) : Nat := digestNat (sha256Final msg)

/-- The lowercase hex character of a nibble. -/
def hexChar (n : Nat) : Char := if n < 10 then Char.ofNat (48 + n) else Char.ofNat (87 + n)

/-- The last `k` lowercase hex digits of `n`, big-endian, zero-padded to width `k`. -/
def hexDigits : Nat → Nat → List Char
  | 0, _ => []
  | k + 1, n => hexDigits k (n / 16) ++ [hexChar (n % 16)]

/-- Model of `hashlib.sha256(msg).hexdigest()`: the 64 lowercase hex digits of the digest. -/
def sha256hex (msg : List Nat) : String := ⟨hexDigits 64 (sha256Nat msg)⟩

/-- The UTF-8 byte values of a string, as natural numbers. -/
def utf8Bytes (s : String) : List Nat := s.toUTF8.toList.map (fun b => b.toNat)

/- ## `AdministratorService` (administrator_service.py)

The record stored by the persistence collaborator.  `update_administrator`
applies the `update_data` fields to the stored record; the embedding applies
them directly and returns the post-update record. -/

/-- A persisted administrator record. -/
structure Administrator where
  username : String
  password_hash : String
  salt : String
  account_locked : Bool
  consecutive_failed_logins : Nat
  failed_login_starttime : Option Int
deriving Repr, DecidableEq

/-- The service's environment-derived configuration: `MAX_PASSWORD_RETRIES`
(default 5) and `PASSWORD_RETRIES_TIME_WINDOW_MINUTES` (default 10). -/
structure AdministratorService where
  MAX_PASSWORD_RETRIES : Nat
  PASSWORD_RETRIES_TIME_WINDOW_MINUTES : Int
deriving Repr, DecidableEq

/-- Model of `AdministratorService.hash_password`: SHA-256 hex digest of the UTF-8
encoding of `salt ++ ":" ++ password`. -/
def hash_password (password salt : String) : String :=
  sha256hex (utf8Bytes (salt ++ ":" ++ password))

/-- Model of `AdministratorService.verify_password`: recompute the digest from the
candidate password and compare with the stored digest. -/
def verify_password (stored_password_hash provided_password salt : String) : Bool :=
  stored_password_hash == hash_password provided_password salt

/-- Model of `AdministratorService.increment_login_failure_counter`: update the failure
counter and window start, then lock the account when `current_count` reaches
the threshold.  `current_count` is the incremented value inside an active
window but the pre-update value in the fresh-window and expired-window
branches, exactly as in the source. -/
def increment_login_failure_counter (svc : AdministratorService)
    (admin : Administrator) (current_time : Int) : Administrator :=
  let time_window : Int := svc.PASSWORD_RETRIES_TIME_WINDOW_MINUTES * 60
  let p :=
    match admin.failed_login_starttime with
    | some failed_login_starttime =>
        if current_time - failed_login_starttime > time_window then
          (admin.consecutive_failed_logins,
           { admin with consecutive_failed_logins := 1,
                        failed_login_starttime := some current_time })
        else
          (admin.consecutive_failed_logins + 1,
           { admin with consecutive_failed_logins := admin.consecutive_failed_logins + 1 })
    | none =>
        (admin.consecutive_failed_logins,
         { admin with consecutive_failed_logins := 1,
                      failed_login_starttime := some current_time })
  if p.1 ≥ svc.MAX_PASSWORD_RETRIES then { p.2 with account_locked := true } else p.2

/-- Model of `AdministratorService.reset_login_failure_counters`: zero the counter and
clear the window start in one update. -/
def reset_login_failure_counters (admin : Administrator) : Administrator :=
  { admin with consecutive_failed_logins := 0, failed_login_starttime := none }

/-- Model of `AdministratorService.unlock_administrator_account`: clear the lock flag
and both failure-tracking fields in one update. -/
def unlock_administrator_account (admin : Administrator) : Administrator :=
  { admin with account_locked := false, consecutive_failed_logins := 0,
               failed_login_starttime := none }

/-- Model of `AdministratorService.lock_administrator_account`: set the lock flag. -/
def lock_administrator_account (admin : Administrator) : Administrator :=
  { admin with account_locked := true }

/-- Model of `AdministratorService.verify_login_credentials` for a resolved
administrator record: returns the login result together with the post-call
persisted record. -/
def verify_login_credentials (svc : AdministratorService) (admin : Administrator)
    (password : String) (current_time : Int) : Option Administrator × Administrator :=
  if !admin.account_locked then
    if verify_password admin.password_hash password admin.salt then
      (some admin, reset_login_failure_counters admin)
    else
      (none, increment_login_failure_counter svc admin current_time)
  else
    (none, admin)

/-- The `admin_data` record handled by `create_administrator`: the
`password_hash` field initially carries the raw password, exactly as in the
source, and is overwritten with the salted digest before validation. -/
structure AdminData where
  username : String
  password_hash : String
  salt : String
deriving Repr, DecidableEq

/-- Model of `AdministratorService.create_administrator`: salt and hash the raw
password, validate the resulting data, and only on success issue the
persistence call (modelled as the `Except.ok` payload carrying the
`crud_operations.create_administrator` arguments).  Validation failure raises
`InvalidAdministratorDataException`, modelled as `Except.error`; the
field-validation contract itself (`validate_administrator_data`, outside the
embedded sources) is a parameter. -/
def create_administrator (validate : AdminData → Bool × String)
    (generated_salt : String) (admin_data : AdminData) :
    Except String (String × String × String) :=
  let salt := generated_salt
  let raw_password := admin_data.password_hash
  let password_hash := hash_password raw_password salt
  let admin_data := { admin_data with password_hash := password_hash, salt := salt }
  let v := validate admin_data
  if v.1 then Except.ok (admin_data.username, password_hash, salt) else Except.error v.2

/- ## `SchemeEligibilityChecker` (scheme_eligibilty_checker.py) -/

/-- A scheme record (only identity matters to the checker). -/
structure Scheme where
  id : Nat
  name : String
deriving Repr, DecidableEq

/-- A `BaseEligibility` strategy: an eligibility predicate returning
`(is_eligible, message)` and a benefit calculator. -/
structure BaseEligibility (Applicant Benefit : Type) where
  check_eligibility : Applicant → Bool × String
  calculate_benefits : Applicant → List Benefit

/-- The context binding a scheme to its eligibility strategy. -/
structure SchemeEligibilityChecker (Applicant Benefit : Type) where
  scheme : Scheme
  eligibility_definition : BaseEligibility Applicant Benefit

/-- Model of `SchemeEligibilityChecker._check_eligibility`: delegate to the strategy. -/
def _check_eligibility {A B : Type} (c : SchemeEligibilityChecker A B)
    (applicant : A) : Bool × String :=
  c.eligibility_definition.check_eligibility applicant

/-- Model of `SchemeEligibilityChecker._calculate_benefits`: benefits when eligible,
the empty list otherwise. -/
def _calculate_benefits {A B : Type} (c : SchemeEligibilityChecker A B)
    (applicant : A) : List B :=
  if (_check_eligibility c applicant).1 then
    c.eligibility_definition.calculate_benefits applicant
  else
    []

/- ## Derived notions used by the specification claims -/

/-- All eight working variables are genuine 32-bit words. -/
def HBounded (st : Hash8) : Prop :=
  st.a < 4294967296 ∧ st.b < 4294967296 ∧ st.c < 4294967296 ∧ st.d < 4294967296 ∧
  st.e < 4294967296 ∧ st.f < 4294967296 ∧ st.g < 4294967296 ∧ st.h < 4294967296

/-- The string of `n` copies of the letter a; used to exhibit distinct
passwords. -/
def repA (n : Nat) : String := ⟨List.replicate n 'a'⟩

/-- The failure-tracking invariant of an administrator record: the counter is
positive exactly when a failure window is open.  It entails both directions
of the specification sentence: a positive counter has a start time, and
neither field is ever reset without the other. -/
abbrev AdminInv (a : Administrator) : Prop :=
  0 < a.consecutive_failed_logins ↔ a.failed_login_starttime ≠ none

/- ## Auxiliary lemmas -/

/-- A 32-bit reduction is below `2 ^ 32`. -/
theorem w32_lt (n : Nat) : w32 n < 4294967296 := Nat.mod_lt _ (by decide)

/-- Applying `processBlock` always yields 32-bit words. -/
theorem processBlock_bounded (st : Hash8) (block : List Nat) :
    HBounded (processBlock st block) := by
  refine ⟨?_, ?_, ?_, ?_, ?_, ?_, ?_, ?_⟩ <;> exact w32_lt _

/-- Folding `processBlock` preserves 32-bit boundedness. -/
theorem foldl_processBlock_bounded (blocks : List (List Nat)) (st : Hash8)
    (h : HBounded st) : HBounded (blocks.foldl processBlock st) := by
  induction blocks generalizing st with
  | nil => exact h
  | cons b bs ih =>
    rw [List.foldl_cons]
    exact ih _ (processBlock_bounded st b)

/-- The final SHA-256 state consists of 32-bit words. -/
theorem sha256Final_bounded (msg : List Nat) : HBounded (sha256Final msg) :=
  foldl_processBlock_bounded _ _ (by refine ⟨?_, ?_, ?_, ?_, ?_, ?_, ?_, ?_⟩ <;> decide)

/-- The SHA-256 digest of any message is below `2 ^ 256`. -/
theorem sha256Nat_lt (msg : List Nat) : sha256Nat msg < 2 ^ 256 := by
  obtain ⟨h1, h2, h3, h4, h5, h6, h7, h8⟩ := sha256Final_bounded msg
  unfold sha256Nat digestNat
  omega

/-- Applying `hexDigits k` always produces `k` characters. -/
theorem hexDigits_length (k : Nat) : ∀ n, (hexDigits k n).length = k := by
  induction k with
  | zero => intro n; rfl
  | succ k ih => intro n; simp [hexDigits, ih]

/-- The hex character map is injective on nibbles. -/
theorem hexChar_inj_fin : ∀ a b : Fin 16, hexChar a.val = hexChar b.val → a = b := by decide

/-- The map `hexDigits k` is injective below `16 ^ k`. -/
theorem hexDigits_inj (k : Nat) : ∀ m n : Nat, m < 16 ^ k → n < 16 ^ k →
    hexDigits k m = hexDigits k n → m = n := by
  induction k with
  | zero =>
    intro m n hm hn _
    simp [pow_zero] at hm hn
    omega
  | succ k ih =>
    intro m n hm hn h
    simp only [hexDigits] at h
    obtain ⟨h1, h2⟩ := List.append_inj h (by simp [hexDigits_length])
    have hm16 : m / 16 < 16 ^ k := by
      rw [Nat.div_lt_iff_lt_mul (by norm_num)]
      calc m < 16 ^ (k + 1) := hm
        _ = 16 ^ k * 16 := pow_succ 16 k
    have hn16 : n / 16 < 16 ^ k := by
      rw [Nat.div_lt_iff_lt_mul (by norm_num)]
      calc n < 16 ^ (k + 1) := hn
        _ = 16 ^ k * 16 := pow_succ 16 k
    have hdiv := ih _ _ hm16 hn16 h1
    have hc : hexChar (m % 16) = hexChar (n % 16) := by simpa using h2
    have hmod := hexChar_inj_fin ⟨m % 16, Nat.mod_lt _ (by norm_num)⟩
      ⟨n % 16, Nat.mod_lt _ (by norm_num)⟩ hc
    have hmod' : m % 16 = n % 16 := congrArg Fin.val hmod
    omega

/-- Distinct counts give distinct strings. -/
theorem repA_inj {m n : Nat} (h : repA m = repA n) : m = n := by
  have hlen := congrArg (fun s : String => s.data.length) h
  simpa [repA] using hlen

/-- Closed form of `increment_login_failure_counter` when a failure window is
open: inside the window the counter advances and the lock check uses the
incremented value; outside it the window restarts and the lock check uses
the stale pre-update value, exactly as in the source. -/
theorem increment_spec_open (svc : AdministratorService) (u ph sl : String)
    (lk : Bool) (cnt : Nat) (t0 t : Int) :
    increment_login_failure_counter svc ⟨u, ph, sl, lk, cnt, some t0⟩ t =
      if t - t0 > svc.PASSWORD_RETRIES_TIME_WINDOW_MINUTES * 60 then
        ⟨u, ph, sl, lk || decide (cnt ≥ svc.MAX_PASSWORD_RETRIES), 1, some t⟩
      else
        ⟨u, ph, sl, lk || decide (cnt + 1 ≥ svc.MAX_PASSWORD_RETRIES), cnt + 1, some t0⟩ := by
  unfold increment_login_failure_counter
  dsimp only
  by_cases hw : t - t0 > svc.PASSWORD_RETRIES_TIME_WINDOW_MINUTES * 60
  · rw [if_pos hw, if_pos hw]
    by_cases hm : cnt ≥ svc.MAX_PASSWORD_RETRIES
    · rw [if_pos hm]
      simp [hm]
    · rw [if_neg hm]
      simp [hm]
  · rw [if_neg hw, if_neg hw]
    by_cases hm : cnt + 1 ≥ svc.MAX_PASSWORD_RETRIES
    · rw [if_pos hm]
      simp [hm]
    · rw [if_neg hm]
      simp [hm]

/-- Closed form of `increment_login_failure_counter` when no failure window
is open: a fresh window starts with counter 1, and the lock check uses the
stale pre-update counter, exactly as in the source. -/
theorem increment_spec_fresh (svc : AdministratorService) (u ph sl : String)
    (lk : Bool) (cnt : Nat) (t : Int) :
    increment_login_failure_counter svc ⟨u, ph, sl, lk, cnt, none⟩ t =
      ⟨u, ph, sl, lk || decide (cnt ≥ svc.MAX_PASSWORD_RETRIES), 1, some t⟩ := by
  unfold increment_login_failure_counter
  dsimp only
  by_cases hm : cnt ≥ svc.MAX_PASSWORD_RETRIES
  · rw [if_pos hm]
    simp [hm]
  · rw [if_neg hm]
    simp [hm]

/- ## Claims about the password credential functions -/

/-- C10: whenever the salted strings coincide — e.g. salt `"a"` with password
`"b:c"` versus salt `"a:b"` with password `"c"`, both yielding `"a:b:c"` —
`hash_password` produces the same digest, and `verify_password` then accepts
the shifted password under the shifted salt. -/
theorem salt_separator_collision (p s q t : String)
    (h : s ++ ":" ++ p = t ++ ":" ++ q) :
    hash_password p s = hash_password q t ∧
    verify_password (hash_password p s) q t = true := by
  have hh : hash_password p s = hash_password q t := by
    unfold hash_password
    rw [h]
  refine ⟨hh, ?_⟩
  simp [verify_password, hh]

/-- Witness for C10: the concrete shifted-salt pair from the claim, with the
accepted password differing from the hashed one. -/
theorem salt_separator_collision_witness :
    ("a" ++ ":" ++ "b:c" = "a:b" ++ ":" ++ "c") ∧ ("b:c" : String) ≠ "c" ∧
    hash_password "b:c" "a" = hash_password "c" "a:b" ∧
    verify_password (hash_password "b:c" "a") "c" "a:b" = true :=
  ⟨by decide, by decide, (salt_separator_collision "b:c" "a" "c" "a:b" (by decide)).1,
   (salt_separator_collision "b:c" "a" "c" "a:b" (by decide)).2⟩

/-- C6 fails as stated: SHA-256 maps infinitely many salted strings into the
finite set of 256-bit digests, so by the pigeonhole principle some pair of
distinct passwords shares a digest under the empty salt, and for that pair
`verify_password` returns `true`, not `false`. -/
theorem verify_rejects_wrong_password_counterexample :
    ¬ ∀ (p p' s : String), p' ≠ p →
        verify_password (hash_password p s) p' s = false := by
  intro hall
  obtain ⟨i, j, hij, hfij⟩ :=
    Fintype.exists_ne_map_eq_of_card_lt
      (fun i : Fin (2 ^ 256 + 1) =>
        (⟨sha256Nat (utf8Bytes ("" ++ ":" ++ repA i.val)), sha256Nat_lt _⟩ : Fin (2 ^ 256)))
      (by rw [Fintype.card_fin, Fintype.card_fin]; exact Nat.lt_succ_self _)
  have hvals : sha256Nat (utf8Bytes ("" ++ ":" ++ repA i.val)) =
      sha256Nat (utf8Bytes ("" ++ ":" ++ repA j.val)) := congrArg Fin.val hfij
  have hne : repA i.val ≠ repA j.val := fun hc => hij (Fin.val_injective (repA_inj hc))
  have hhash : hash_password (repA i.val) "" = hash_password (repA j.val) "" := by
    unfold hash_password sha256hex
    rw [hvals]
  have hfalse := hall (repA j.val) (repA i.val) "" hne
  rw [verify_password, hhash] at hfalse
  simp at hfalse

/-- C6 (amended): verification always accepts the originally hashed password;
a different candidate is accepted exactly when SHA-256 collides on the two
salted strings (such collisions exist by counting, though no explicit one is
known, so rejection holds for every pair whose digests differ). -/
theorem verify_password_roundtrip (p p' s : String) :
    verify_password (hash_password p s) p s = true ∧
    (verify_password (hash_password p s) p' s = true ↔
      sha256Nat (utf8Bytes (s ++ ":" ++ p')) = sha256Nat (utf8Bytes (s ++ ":" ++ p))) := by
  refine ⟨by simp [verify_password], ?_, ?_⟩
  · intro h
    have hs : hash_password p s = hash_password p' s := by
      simpa [verify_password] using h
    unfold hash_password sha256hex at hs
    have hdata : hexDigits 64 (sha256Nat (utf8Bytes (s ++ ":" ++ p))) =
        hexDigits 64 (sha256Nat (utf8Bytes (s ++ ":" ++ p'))) := congrArg String.data hs
    have h16 : (16 : Nat) ^ 64 = 2 ^ 256 := by norm_num
    exact (hexDigits_inj 64 _ _ (h16 ▸ sha256Nat_lt _) (h16 ▸ sha256Nat_lt _) hdata).symm
  · intro h
    simp [verify_password, hash_password, sha256hex, h]

/- ## Claims about the eligibility checker -/

/-- C1: `_calculate_benefits` returns the strategy benefit list exactly when
`_check_eligibility` reports eligible; on an ineligible verdict it returns the
empty list, and the result is moreover independent of the
`calculate_benefits` strategy component — replacing it by any other function
`g` changes nothing — so the calculator is never invoked. -/
theorem calculate_benefits_iff_eligible {A B : Type} (c : SchemeEligibilityChecker A B)
    (g : A → List B) (applicant : A) :
    ((_check_eligibility c applicant).1 = true →
      _calculate_benefits c applicant =
        c.eligibility_definition.calculate_benefits applicant) ∧
    ((_check_eligibility c applicant).1 = false →
      _calculate_benefits c applicant = [] ∧
      _calculate_benefits
        { c with eligibility_definition :=
            { c.eligibility_definition with calculate_benefits := g } } applicant = []) := by
  constructor
  · intro h
    simp [_calculate_benefits, h]
  · intro h
    constructor
    · simp [_calculate_benefits, h]
    · simp only [_calculate_benefits, _check_eligibility] at h ⊢
      simp [h]

/-- Witness for C1 at a concrete strategy: an eligible applicant receives the
calculated benefits, an ineligible one the empty list. -/
theorem calculate_benefits_iff_eligible_witness :
    _calculate_benefits
      (⟨⟨1, "s"⟩, ⟨fun n => (decide (n < 5), "r"), fun _ => [7]⟩⟩ :
        SchemeEligibilityChecker Nat Nat) 3 = [7] ∧
    _calculate_benefits
      (⟨⟨1, "s"⟩, ⟨fun n => (decide (n < 5), "r"), fun _ => [7]⟩⟩ :
        SchemeEligibilityChecker Nat Nat) 9 = [] :=
  ⟨(calculate_benefits_iff_eligible _ (fun _ => []) 3).1 (by decide),
   ((calculate_benefits_iff_eligible _ (fun _ => []) 9).2 (by decide)).1⟩

/- ## Claims about the failure counter and the retry window -/

/-- C4: with an open failure window, a failure strictly after the retry
window resets the counter to 1 and restarts the window at the current time;
a failure at or before the window bound increments the counter by exactly
one. -/
theorem window_expiry_behavior (svc : AdministratorService) (admin : Administrator)
    (t0 current_time : Int) (h : admin.failed_login_starttime = some t0) :
    (current_time - t0 > svc.PASSWORD_RETRIES_TIME_WINDOW_MINUTES * 60 →
      (increment_login_failure_counter svc admin current_time).consecutive_failed_logins = 1 ∧
      (increment_login_failure_counter svc admin current_time).failed_login_starttime =
        some current_time) ∧
    (current_time - t0 ≤ svc.PASSWORD_RETRIES_TIME_WINDOW_MINUTES * 60 →
      (increment_login_failure_counter svc admin current_time).consecutive_failed_logins =
        admin.consecutive_failed_logins + 1) := by
  obtain ⟨u, ph, sl, lk, cnt, st⟩ := admin
  simp only at h
  subst h
  rw [increment_spec_open]
  constructor
  · intro hw
    rw [if_pos hw]
    exact ⟨rfl, rfl⟩
  · intro hw
    rw [if_neg (not_lt.mpr hw)]

/-- Witness for C4: with a window opened at time 0 and a ten-minute
configuration, a failure at 601 seconds resets, one at 600 seconds
increments. -/
theorem window_expiry_behavior_witness :
    ((increment_login_failure_counter ⟨5, 10⟩ ⟨"u", "ph", "s", false, 2, some 0⟩
        601).consecutive_failed_logins = 1 ∧
      (increment_login_failure_counter ⟨5, 10⟩ ⟨"u", "ph", "s", false, 2, some 0⟩
        601).failed_login_starttime = some 601) ∧
    (increment_login_failure_counter ⟨5, 10⟩ ⟨"u", "ph", "s", false, 2, some 0⟩
        600).consecutive_failed_logins = 3 :=
  ⟨(window_expiry_behavior ⟨5, 10⟩ ⟨"u", "ph", "s", false, 2, some 0⟩ 0 601 rfl).1
      (by decide),
   (window_expiry_behavior ⟨5, 10⟩ ⟨"u", "ph", "s", false, 2, some 0⟩ 0 600 rfl).2
      (by decide)⟩

/-- C5: a locked account short-circuits `verify_login_credentials`: the
result is none for every candidate password and the stored record — counter,
window start, and lock flag included — is returned unchanged. -/
theorem locked_account_short_circuit (svc : AdministratorService)
    (admin : Administrator) (password : String) (current_time : Int)
    (h : admin.account_locked = true) :
    verify_login_credentials svc admin password current_time = (none, admin) := by
  simp [verify_login_credentials, h]

/-- Witness for C5: a concrete locked administrator with the would-be correct
password still yields none and an untouched record. -/
theorem locked_account_short_circuit_witness :
    verify_login_credentials ⟨5, 10⟩
        ⟨"u", hash_password "pw" "s0", "s0", true, 3, some 0⟩ "pw" 42 =
      (none, ⟨"u", hash_password "pw" "s0", "s0", true, 3, some 0⟩) :=
  locked_account_short_circuit ⟨5, 10⟩
    ⟨"u", hash_password "pw" "s0", "s0", true, 3, some 0⟩ "pw" 42 rfl

/- ## Claims about reset and creation -/

/-- C8: the on-success reset zeroes the counter and clears the window start
in the one update it issues, and leaves every other field — the lock flag in
particular — unchanged. -/
theorem reset_counters_frame (admin : Administrator) :
    (reset_login_failure_counters admin).consecutive_failed_logins = 0 ∧
    (reset_login_failure_counters admin).failed_login_starttime = none ∧
    (reset_login_failure_counters admin).account_locked = admin.account_locked ∧
    (reset_login_failure_counters admin).username = admin.username ∧
    (reset_login_failure_counters admin).password_hash = admin.password_hash ∧
    (reset_login_failure_counters admin).salt = admin.salt := by
  obtain ⟨u, ph, sl, lk, cnt, st⟩ := admin
  exact ⟨rfl, rfl, rfl, rfl, rfl, rfl⟩

/-- C9: when field validation rejects the (hashed and salted) administrator
data, `create_administrator` raises `InvalidAdministratorDataException` — the
error outcome — and issues no persistence call: the `Except.ok` payload
modelling the `crud_operations.create_administrator` call is never produced. -/
theorem create_rejects_before_persistence (validate : AdminData → Bool × String)
    (generated_salt : String) (admin_data : AdminData)
    (h : (validate { admin_data with
            password_hash := hash_password admin_data.password_hash generated_salt,
            salt := generated_salt }).1 = false) :
    create_administrator validate generated_salt admin_data =
      Except.error (validate { admin_data with
        password_hash := hash_password admin_data.password_hash generated_salt,
        salt := generated_salt }).2 := by
  obtain ⟨u, pw, sl⟩ := admin_data
  simp only [create_administrator] at h ⊢
  rw [if_neg]
  simp [h]

/-- Witness for C9: a rejecting validator makes creation fail with the
validation message. -/
theorem create_rejects_before_persistence_witness :
    create_administrator (fun _ => (false, "bad")) "s0" ⟨"u", "pw", ""⟩ =
      Except.error "bad" :=
  create_rejects_before_persistence (fun _ => (false, "bad")) "s0" ⟨"u", "pw", ""⟩ rfl

/- ## Claims about the lockout boundary -/

/-- C2 fails on the code at a reachable input: with `MAX_PASSWORD_RETRIES = 1`
and a zeroed administrator, the first failure leaves the post-update counter
at 1, which reaches the threshold, yet the account is not locked — the lock
check in the fresh-window branch reads the pre-update counter 0. -/
theorem lock_check_uses_preupdate_counter :
    (increment_login_failure_counter ⟨1, 10⟩ ⟨"u", "ph", "s", false, 0, none⟩
        0).consecutive_failed_logins = 1 ∧
    (1 : Nat) ≥ 1 ∧
    (increment_login_failure_counter ⟨1, 10⟩ ⟨"u", "ph", "s", false, 0, none⟩
        0).account_locked = false := by
  decide

/-- C3 fails as stated at the configuration `MAX_PASSWORD_RETRIES = 1`:
exactly one failure (a count equal to the threshold) within a fresh window
leaves the account unlocked, because the fresh-window lock check uses the
pre-update counter 0. -/
theorem lockout_boundary_counterexample :
    (([7] : List Int).foldl (increment_login_failure_counter ⟨1, 10⟩)
        ⟨"u", "ph", "s", false, 0, none⟩).consecutive_failed_logins = 1 ∧
    (([7] : List Int).foldl (increment_login_failure_counter ⟨1, 10⟩)
        ⟨"u", "ph", "s", false, 0, none⟩).account_locked = false := by
  decide

/-- A run of failures all inside the window opened at `t1` adds its length to
the counter, keeps the window start, and locks exactly when some intermediate
incremented count reaches the threshold, i.e. when the run is nonempty and
the final count reaches it. -/
theorem foldl_increment_within (svc : AdministratorService) (t1 : Int) :
    ∀ ts : List Int,
      (∀ t ∈ ts, t - t1 ≤ svc.PASSWORD_RETRIES_TIME_WINDOW_MINUTES * 60) →
      ∀ (u ph sl : String) (lk : Bool) (cnt : Nat),
      ts.foldl (increment_login_failure_counter svc) ⟨u, ph, sl, lk, cnt, some t1⟩ =
        ⟨u, ph, sl,
         lk || (decide (ts.length ≠ 0) &&
                decide (svc.MAX_PASSWORD_RETRIES ≤ cnt + ts.length)),
         cnt + ts.length, some t1⟩ := by
  intro ts
  induction ts with
  | nil =>
    intro _ u ph sl lk cnt
    simp
  | cons t ts ih =>
    intro hw u ph sl lk cnt
    rw [List.foldl_cons, increment_spec_open,
        if_neg (not_lt.mpr (hw t (List.mem_cons_self t ts))),
        ih (fun x hx => hw x (List.mem_cons_of_mem t hx))]
    have hrw : cnt + (ts.length + 1) = cnt + 1 + ts.length := by omega
    simp only [List.length_cons, Administrator.mk.injEq, hrw]
    refine ⟨trivial, trivial, trivial, ?_, trivial, trivial⟩
    by_cases h1 : cnt + 1 ≥ svc.MAX_PASSWORD_RETRIES
    all_goals by_cases h2 : svc.MAX_PASSWORD_RETRIES ≤ cnt + 1 + ts.length
    all_goals by_cases h3 : ts.length = 0
    all_goals simp [h1, h2, h3]
    all_goals omega

/-- C3 (amended): for configurations with `max_retries` at least 2, starting
from a zeroed record, `max_retries` failures inside one retry window lock the
account while `max_retries - 1` failures leave it unlocked with the counter at
`max_retries - 1`.  With `max_retries = 1` the claim fails (see the
counterexample): the first failure of a fresh window never locks because that
branch checks the pre-update counter. -/
theorem lockout_boundary (svc : AdministratorService) (t1 : Int) (ts ts' : List Int)
    (hmax : 2 ≤ svc.MAX_PASSWORD_RETRIES)
    (hlen : ts.length + 1 = svc.MAX_PASSWORD_RETRIES)
    (hlen' : ts'.length + 2 = svc.MAX_PASSWORD_RETRIES)
    (hw : ∀ t ∈ ts, t - t1 ≤ svc.PASSWORD_RETRIES_TIME_WINDOW_MINUTES * 60)
    (hw' : ∀ t ∈ ts', t - t1 ≤ svc.PASSWORD_RETRIES_TIME_WINDOW_MINUTES * 60)
    (u ph sl : String) :
    ((t1 :: ts).foldl (increment_login_failure_counter svc)
        ⟨u, ph, sl, false, 0, none⟩).account_locked = true ∧
    ((t1 :: ts').foldl (increment_login_failure_counter svc)
        ⟨u, ph, sl, false, 0, none⟩).account_locked = false ∧
    ((t1 :: ts').foldl (increment_login_failure_counter svc)
        ⟨u, ph, sl, false, 0, none⟩).consecutive_failed_logins =
      svc.MAX_PASSWORD_RETRIES - 1 := by
  have h0 : ¬ (0 ≥ svc.MAX_PASSWORD_RETRIES) := by omega
  have hfirst : increment_login_failure_counter svc ⟨u, ph, sl, false, 0, none⟩ t1 =
      ⟨u, ph, sl, false, 1, some t1⟩ := by
    rw [increment_spec_fresh]
    simp [h0]
  refine ⟨?_, ?_, ?_⟩
  · rw [List.foldl_cons, hfirst, foldl_increment_within svc t1 ts hw]
    simp [show ts.length ≠ 0 by omega,
          show svc.MAX_PASSWORD_RETRIES ≤ 1 + ts.length by omega]
  · rw [List.foldl_cons, hfirst, foldl_increment_within svc t1 ts' hw']
    simp [show ¬ svc.MAX_PASSWORD_RETRIES ≤ 1 + ts'.length by omega]
  · rw [List.foldl_cons, hfirst, foldl_increment_within svc t1 ts' hw']
    simp only
    omega

/-- Witness for C3 (amended) at the default configuration: five failures
within the ten-minute window lock the account, four leave it unlocked with
the counter at 4. -/
theorem lockout_boundary_witness :
    (([0, 60, 120, 180, 240] : List Int).foldl (increment_login_failure_counter ⟨5, 10⟩)
        ⟨"u", "ph", "s", false, 0, none⟩).account_locked = true ∧
    (([0, 60, 120, 180] : List Int).foldl (increment_login_failure_counter ⟨5, 10⟩)
        ⟨"u", "ph", "s", false, 0, none⟩).account_locked = false ∧
    (([0, 60, 120, 180] : List Int).foldl (increment_login_failure_counter ⟨5, 10⟩)
        ⟨"u", "ph", "s", false, 0, none⟩).consecutive_failed_logins = 5 - 1 :=
  lockout_boundary ⟨5, 10⟩ 0 [60, 120, 180, 240] [60, 120, 180]
    (by decide) (by decide) (by decide) (by decide) (by decide) "u" "ph" "s"

/- ## The failure-tracking invariant -/

/-- Incrementing always yields a positive counter together with an open
window. -/
theorem adminInv_increment (svc : AdministratorService) (a : Administrator)
    (t : Int) : AdminInv (increment_login_failure_counter svc a t) := by
  obtain ⟨u, ph, sl, lk, cnt, st⟩ := a
  cases st with
  | none =>
    rw [increment_spec_fresh]
    simp [AdminInv]
  | some t0 =>
    rw [increment_spec_open]
    split <;> simp [AdminInv]

/-- Resetting clears the counter together with the window. -/
theorem adminInv_reset (a : Administrator) :
    AdminInv (reset_login_failure_counters a) := by
  simp [AdminInv, reset_login_failure_counters]

/-- Unlocking clears the counter together with the window. -/
theorem adminInv_unlock (a : Administrator) :
    AdminInv (unlock_administrator_account a) := by
  simp [AdminInv, unlock_administrator_account]

/-- C7: every operation that writes failure-tracking state preserves the
invariant that the counter is positive exactly when the window start is set —
so none of them zeroes the counter without clearing the start time or vice
versa. -/
theorem failure_tracking_invariant (svc : AdministratorService) (a : Administrator)
    (password : String) (t t' : Int) (h : AdminInv a) :
    AdminInv (increment_login_failure_counter svc a t) ∧
    AdminInv (reset_login_failure_counters a) ∧
    AdminInv (unlock_administrator_account a) ∧
    AdminInv ((verify_login_credentials svc a password t').2) := by
  refine ⟨adminInv_increment svc a t, adminInv_reset a, adminInv_unlock a, ?_⟩
  unfold verify_login_credentials
  by_cases hlk : a.account_locked
  · simpa [hlk] using h
  · simp only [hlk, Bool.not_false, if_true]
    by_cases hv : verify_password a.password_hash password a.salt
    · simpa [hv] using adminInv_reset a
    · simpa [hv] using adminInv_increment svc a t'

/-- Witness for C7 at a concrete invariant-satisfying record. -/
theorem failure_tracking_invariant_witness :
    AdminInv ⟨"u", "ph", "s", false, 2, some 0⟩ ∧
    (AdminInv (increment_login_failure_counter ⟨5, 10⟩
        ⟨"u", "ph", "s", false, 2, some 0⟩ 30) ∧
     AdminInv (reset_login_failure_counters ⟨"u", "ph", "s", false, 2, some 0⟩) ∧
     AdminInv (unlock_administrator_account ⟨"u", "ph", "s", false, 2, some 0⟩) ∧
     AdminInv ((verify_login_credentials ⟨5, 10⟩ ⟨"u", "ph", "s", false, 2, some 0⟩
        "pw" 40).2)) :=
  ⟨by decide,
   failure_tracking_invariant ⟨5, 10⟩ ⟨"u", "ph", "s", false, 2, some 0⟩ "pw" 30 40
     (by decide)⟩
